import Mathlib

/-!
# Verification of the ova-visual-insights backend core

Shallow embedding of the AI code-generation / sandboxed-execution pipeline:

* `PythonSandboxService.executePythonCode` (temp-script creation, python run,
  output-artifact check, scoped cleanup) with the filesystem modelled as a
  `Finset String` of existing paths;
* `AIService.parseAIResponse` (the four section-tag regexes) over `List Char`;
* `PythonSandboxService.cleanupOldFiles` (the age-based retention sweep);
* the `resultsRoutes` chart GET/DELETE handlers;
* the `analysisController` `/visualize` response construction;
* `FileProcessingService.inferDataTypes` and `getDatasetInfo`.
-/

/-! ## Output formats (`ChartGenerationRequest.outputFormat`) -/

inductive OutputFormat where
  | png
  | jpg
  | svg
  | html
deriving DecidableEq

/-- The filename suffix used for each output format
(`${executionId}.${request.outputFormat}` in the source). -/
def formatExt : OutputFormat → String
  | .png => "png"
  | .jpg => "jpg"
  | .svg => "svg"
  | .html => "html"

structure ChartGenerationRequest where
  pythonCode : String
  datasetPath : String
  outputFormat : OutputFormat

/-! ## Path construction

The service constructor fixes `tempDir = join(process.cwd(), 'temp')` and
`outputDir = join(process.cwd(), 'output')`; `executePythonCode` then forms
`join(tempDir, executionId + '.py')` and
`join(outputDir, executionId + '.' + outputFormat)`.  Neither function takes
any clock or timestamp input: the paths depend only on `cwd` and the
execution id. -/

def pythonFilePath (cwd executionId : String) : String :=
  cwd ++ "/temp/" ++ executionId ++ ".py"

def outputFilePath (cwd executionId : String) (fmt : OutputFormat) : String :=
  cwd ++ "/output/" ++ executionId ++ "." ++ formatExt fmt

/-! ## Character-list helpers shared by the path proofs and the parser -/

/-- Split at the first `'.'`: two decompositions of the same character list as
(dot-free prefix, `'.'`, tail) agree. -/
theorem dot_split {a1 a2 b1 b2 : List Char}
    (h1 : '.' ∉ a1) (h2 : '.' ∉ a2)
    (h : a1 ++ '.' :: b1 = a2 ++ '.' :: b2) : a1 = a2 ∧ b1 = b2 := by
  induction a1 generalizing a2 with
  | nil =>
    cases a2 with
    | nil => simpa using h
    | cons c cs =>
      simp only [List.nil_append, List.cons_append, List.cons.injEq] at h
      exact absurd (h.1 ▸ List.mem_cons_self c cs) h2
  | cons c cs ih =>
    cases a2 with
    | nil =>
      simp only [List.nil_append, List.cons_append, List.cons.injEq] at h
      exact absurd (h.1 ▸ List.mem_cons_self c cs) h1
    | cons d ds =>
      simp only [List.cons_append, List.cons.injEq] at h
      have h1' : '.' ∉ cs := fun hm => h1 (List.mem_cons_of_mem _ hm)
      have h2' : '.' ∉ ds := fun hm => h2 (List.mem_cons_of_mem _ hm)
      obtain ⟨he, ht⟩ := ih h1' h2' h.2
      exact ⟨by simp [h.1, he], ht⟩

/-! ## JavaScript string helpers

`jsTrim` embeds JavaScript `String.prototype.trim` (strip whitespace at both
ends); `jsOr` embeds `a || b` applied to an optional string, where both
`undefined` and the empty string are falsy. -/

def isWS (c : Char) : Bool := c.isWhitespace

def trimChars (l : List Char) : List Char :=
  ((l.dropWhile isWS).reverse.dropWhile isWS).reverse

def jsTrim (s : String) : String :=
  ⟨trimChars s.data⟩

def jsOr (o : Option String) (dflt : String) : String :=
  match o with
  | none => dflt
  | some s => if s = "" then dflt else s

/-! ## PythonSandboxService.runPythonFile

The python-shell run is observed through the accumulated stdout transcript
and the accumulated error transcript (`message` / `error` events plus the
`end` callback's error, each appended with a newline).  The promise resolves
with `success: !error`, the trimmed output, and `error.trim() || undefined`. -/

structure RunOutcome where
  output : String
  errAcc : String

structure RunResult where
  success : Bool
  output : String
  error : Option String

def runPythonFile (o : RunOutcome) : RunResult :=
  { success := o.errAcc = ""
  , output := jsTrim o.output
  , error := if jsTrim o.errAcc = "" then none else some (jsTrim o.errAcc) }

/-! ## PythonSandboxService.executePythonCode

The filesystem is modelled as the `Finset String` of paths that currently
exist (`writeFileSync` inserts, `unlinkSync` erases, `existsSync` is
membership; file contents play no role in the verified claims, so they are
not modelled, and neither is the text produced by `enhancePythonCode`).

`ExecEvent` records how the `try` block unfolded:
* `run o chartCreated` — the script file was written and `runPythonFile`
  completed with observations `o`; `chartCreated` tells whether the enveloped
  script persisted the expected output file;
* `throwAfterWrite msg` — an exception was raised after `writeFileSync`
  succeeded (`msg = some m` for an `Error` with message `m`, `none` for a
  non-`Error` throw, which the `catch` maps to `'Unknown error occurred'`);
* `throwBeforeWrite msg` — an exception was raised before the script file
  came into existence.

The `finally` block deletes the temp script when it exists, whichever branch
produced the result. -/

structure PythonExecutionResult where
  success : Bool
  output : String
  error : Option String := none
  chartPath : Option String := none

inductive ExecEvent where
  | run (o : RunOutcome) (chartCreated : Bool)
  | throwAfterWrite (msg : Option String)
  | throwBeforeWrite (msg : Option String)

def executePythonCode (cwd : String) (req : ChartGenerationRequest)
    (executionId : String) (ev : ExecEvent) (fs0 : Finset String) :
    Finset String × PythonExecutionResult :=
  let pythonFile := pythonFilePath cwd executionId
  let outputFile := outputFilePath cwd executionId req.outputFormat
  let step : Finset String × PythonExecutionResult :=
    match ev with
    | .throwBeforeWrite msg =>
        (fs0,
         { success := false, output := ""
         , error := some (msg.getD "Unknown error occurred") })
    | .throwAfterWrite msg =>
        (insert pythonFile fs0,
         { success := false, output := ""
         , error := some (msg.getD "Unknown error occurred") })
    | .run o chartCreated =>
        let fs1 := insert pythonFile fs0
        let fs2 := if chartCreated then insert outputFile fs1 else fs1
        let result := runPythonFile o
        if result.success = true ∧ outputFile ∈ fs2 then
          (fs2,
           { success := true, output := result.output
           , chartPath := some outputFile })
        else
          (fs2,
           { success := false, output := result.output
           , error := some (jsOr result.error "Chart generation failed") })
  (if pythonFile ∈ step.1 then step.1.erase pythonFile else step.1, step.2)

/-- Clean completion of the sandboxed process run: the run actually finished
(no exception) and python-shell reported no error (`success: !error`). -/
def ExecEvent.cleanCompletion : ExecEvent → Bool
  | .run o _ => (runPythonFile o).success
  | _ => false

/-! ## AIService.parseAIResponse

Each field is extracted with a JavaScript regex of the shape
`/TAG:\s*(.*?)(?=OTHER1|OTHER2|OTHER3|$)/s`.  For this pattern class the
backtracking regex semantics has a direct characterisation, which the
definitions below embed:

* the overall match starts at the first occurrence of the tag in the reply
  (the remainder of the pattern can always complete, since the lookahead
  alternative `$` succeeds at end-of-text, so no later start is ever taken);
* the greedy `\s*` consumes the maximal whitespace run after the tag (it is
  never backtracked, again because the rest of the pattern cannot fail);
* the lazy capture `(.*?)` stops at the first position at which one of the
  other three tags begins, or at end-of-text if none does.

The field is then `match[1].trim() || placeholder`. -/

/-- Position-0 lookahead of the regex alternation `(?=o1|o2|o3)`:
does one of the other tags start here? -/
def lookaheadHit (others : List (List Char)) (r : List Char) : Bool :=
  others.any (fun o => o.isPrefixOf r)

/-- First position at which one of `others` begins, or the length of the list
if none does (where the `$` alternative of the lookahead fires). -/
def firstTagPos (others : List (List Char)) : List Char → Nat
  | [] => 0
  | c :: cs => if lookaheadHit others (c :: cs) then 0 else firstTagPos others cs + 1

/-- Index of the first occurrence of `pat` in the list, if any. -/
def findSub (pat : List Char) : List Char → Option Nat
  | [] => if pat.isEmpty then some 0 else none
  | c :: cs =>
      if pat.isPrefixOf (c :: cs) then some 0
      else (findSub pat cs).map (· + 1)

/-- The capture group of `/tag\s*(.*?)(?=others|$)/s` on `s`, when the regex
matches (i.e. when the tag occurs). -/
def extractRaw (tag : List Char) (others : List (List Char)) (s : List Char) :
    Option (List Char) :=
  (findSub tag s).map (fun i =>
    let rest := s.drop (i + tag.length)
    let body := rest.dropWhile isWS
    body.take (firstTagPos others body))

/-- One field of the parsed reply: `match?.[1]?.trim() || dflt`. -/
def sectionField (tag : List Char) (others : List (List Char))
    (dflt : List Char) (s : List Char) : List Char :=
  match extractRaw tag others s with
  | none => dflt
  | some raw =>
      let t := trimChars raw
      if t.isEmpty then dflt else t

def tagAnalysis : List Char := "ANALYSIS:".data
def tagCode : List Char := "CODE:".data
def tagVisualizationType : List Char := "VISUALIZATION_TYPE:".data
def tagExplanation : List Char := "EXPLANATION:".data

structure ParsedAIResponse where
  analysis : String
  pythonCode : String
  visualizationType : String
  explanation : String
deriving DecidableEq

def parseAIResponse (response : String) : ParsedAIResponse :=
  { analysis :=
      ⟨sectionField tagAnalysis [tagCode, tagVisualizationType, tagExplanation]
        "Analysis not provided".data response.data⟩
  , pythonCode :=
      ⟨sectionField tagCode [tagAnalysis, tagVisualizationType, tagExplanation]
        "print(\"No code generated\")".data response.data⟩
  , visualizationType :=
      ⟨sectionField tagVisualizationType [tagAnalysis, tagCode, tagExplanation]
        "Unknown".data response.data⟩
  , explanation :=
      ⟨sectionField tagExplanation [tagAnalysis, tagCode, tagVisualizationType]
        "Explanation not provided".data response.data⟩ }

/-- Modelled from the spec: the trimmed text lying between the (first
occurrence of the) tag and the nearest following occurrence of one of the
other three tags, or end-of-text if none follows. -/
def specSectionText (tag : List Char) (others : List (List Char))
    (s : List Char) : Option (List Char) :=
  (findSub tag s).map (fun i =>
    let rest := s.drop (i + tag.length)
    trimChars (rest.take (firstTagPos others rest)))

/-- Every candidate terminator tag is nonempty and starts with a
non-whitespace character (true of the four concrete tags). -/
def goodTags (others : List (List Char)) : Bool :=
  others.all (fun o =>
    match o with
    | [] => false
    | c :: _ => !isWS c)

/-! ## PythonSandboxService.cleanupOldFiles

`cleanupDirectory` walks a directory listing and unlinks every file with
`currentTime - stats.mtime.getTime() > maxAge`; it is applied to the temp
directory and to the output directory.  Times are epoch milliseconds. -/

structure StoredFile where
  name : String
  mtime : Int
deriving DecidableEq

def cleanupDirectory (currentTime maxAge : Int) (files : List StoredFile) :
    List StoredFile :=
  files.filter (fun f => !(currentTime - f.mtime > maxAge : Bool))

def cleanupOldFiles (currentTime maxAge : Int)
    (tempFiles outputFiles : List StoredFile) :
    List StoredFile × List StoredFile :=
  (cleanupDirectory currentTime maxAge tempFiles,
   cleanupDirectory currentTime maxAge outputFiles)

/-! ## resultsRoutes: GET /charts/:filename and DELETE /charts/:filename

The output directory is again a set of filenames.  Both handlers first call
`existsSync` and answer 404 `'Chart not found'` on a miss; the delete handler
then unlinks the file and reports success. -/

inductive ChartGetResult where
  | notFound
  | found (path : String)
deriving DecidableEq

inductive ChartDeleteResult where
  | notFound
  | deleted
deriving DecidableEq

def getChart (store : Finset String) (filename : String) : ChartGetResult :=
  if filename ∈ store then .found filename else .notFound

def deleteChart (store : Finset String) (filename : String) :
    ChartDeleteResult × Finset String :=
  if filename ∈ store then (.deleted, store.erase filename)
  else (.notFound, store)

/-! ## analysisController POST /visualize — response construction

After `aiService.analyzeData` succeeded and `executePythonCode` returned, the
handler builds either the 200 response (execution succeeded and a chart path
is present) or the 400 response; both embed the same analysis block
`{id, query, analysis, visualizationType, explanation, timestamp}` taken from
the AI response. -/

structure AIAnalysisResponse where
  id : String
  analysis : String
  pythonCode : String
  visualizationType : String
  explanation : String
  timestamp : Int
deriving DecidableEq

structure AnalysisPayload where
  id : String
  query : String
  analysis : String
  visualizationType : String
  explanation : String
  timestamp : Int
deriving DecidableEq

structure VisualizeResponse where
  status : Nat
  success : Bool
  analysis : AnalysisPayload
  chartPath : Option String
  error : Option String
  executionOutput : String
  executionSuccess : Bool
deriving DecidableEq

def analysisPayloadOf (query : String) (ai : AIAnalysisResponse) : AnalysisPayload :=
  { id := ai.id
  , query := query
  , analysis := ai.analysis
  , visualizationType := ai.visualizationType
  , explanation := ai.explanation
  , timestamp := ai.timestamp }

def visualizeRespond (query : String) (ai : AIAnalysisResponse)
    (er : PythonExecutionResult) : VisualizeResponse :=
  if er.success = true ∧ er.chartPath.isSome = true then
    { status := 200, success := true
    , analysis := analysisPayloadOf query ai
    , chartPath := er.chartPath
    , error := none
    , executionOutput := er.output
    , executionSuccess := true }
  else
    { status := 400, success := false
    , analysis := analysisPayloadOf query ai
    , chartPath := none
    , error := some (jsOr er.error "Chart generation failed")
    , executionOutput := er.output
    , executionSuccess := false }

/-! ## FileProcessingService.inferDataTypes

A cell as delivered by the CSV parser (always a string) or by
`XLSX.utils.sheet_to_json` (numbers, strings, `Date` objects, `null`,
`undefined`).  The two JavaScript library predicates that the source applies
to strings — `!isNaN(Number(s))` and `!isNaN(Date.parse(s))` — are not part
of this repository, so they are abstract parameters `isNumStr` / `isDateStr`.

For the other cell shapes the JavaScript coercions are fixed:
`typeof v === 'number'` holds exactly for `num`; `Number(d)` on a `Date` is
its epoch value, NaN exactly for an invalid date; `Number(null) = 0` and
`Number(undefined) = NaN` (both unreachable after the non-empty filter);
`v instanceof Date` holds exactly for `dateObj`; `Date.parse` coerces a
number to its decimal string first (unreachable: the number branch fires
before the date branch for every `num`). -/

inductive CellValue where
  | num (x : Int)
  | str (s : String)
  | dateObj (valid : Bool)
  | vnull
  | undef
deriving DecidableEq

/-- The filter `val !== null && val !== undefined && val !== ''`
(strict equality: a number is never `=== ''`). -/
def CellValue.nonEmpty : CellValue → Bool
  | .vnull => false
  | .undef => false
  | .str s => !(s = "" : Bool)
  | _ => true

/-- `typeof v === 'number' || !isNaN(Number(v))`. -/
def numberCheck (isNumStr : String → Bool) : CellValue → Bool
  | .num _ => true
  | .str s => isNumStr s
  | .dateObj valid => valid
  | .vnull => true
  | .undef => false

/-- `v instanceof Date || !isNaN(Date.parse(v))`. -/
def dateCheck (isDateStr : String → Bool) : CellValue → Bool
  | .dateObj _ => true
  | .str s => isDateStr s
  | .num x => isDateStr (toString x)
  | .vnull => false
  | .undef => false

def classifyValue (isNumStr isDateStr : String → Bool) (v : CellValue) : String :=
  if numberCheck isNumStr v then "number"
  else if dateCheck isDateStr v then "date"
  else "string"

/-- `dataRows.map(row => row[colIndex]).filter(nonEmpty)`; an out-of-range
index reads as `undefined`, exactly as in JavaScript. -/
def columnValues (rows : List (List CellValue)) (colIndex : Nat) : List CellValue :=
  (rows.map (fun row => row.getD colIndex .undef)).filter CellValue.nonEmpty

def inferColumnType (isNumStr isDateStr : String → Bool)
    (rows : List (List CellValue)) (colIndex : Nat) : String :=
  match columnValues rows colIndex with
  | [] => "string"
  | v :: _ => classifyValue isNumStr isDateStr v

def inferDataTypes (isNumStr isDateStr : String → Bool)
    (headers : List String) (rows : List (List CellValue)) :
    List (String × String) :=
  headers.enum.map (fun p => (p.2, inferColumnType isNumStr isDateStr rows p.1))

/-! ## FileProcessingService.getDatasetInfo and the upload filenames

The multer middleware stores an upload under
`` `${uuidv4()}-${Date.now()}${extname(originalname)}` ``, while
`processCSVFile` / `processExcelFile` put a second, freshly drawn
`uuidv4()` into `DatasetInfo.id`.  `getDatasetInfo(datasetId)` scans the
uploads directory and takes the first filename with
`file.includes(datasetId)`, re-processing that file; with no match it
returns `null`. -/

structure DatasetInfo where
  id : String
  filename : String
  filePath : String
deriving DecidableEq

/-- The stored filename chosen by the multer `filename` callback. -/
def storedUploadName (nameUuid : String) (now : Int) (ext : String) : String :=
  nameUuid ++ "-" ++ toString now ++ ext

/-- `DatasetInfo` as built by `processCSVFile` (the fields the round-trip
claim is about; `freshId` models the `uuidv4()` drawn at line 121,
independent of the stored filename). -/
def processCSVDatasetInfo (uploadDir freshId storedFilename : String) : DatasetInfo :=
  { id := freshId
  , filename := storedFilename
  , filePath := uploadDir ++ "/" ++ storedFilename }

/-- JavaScript `hay.includes(needle)`. -/
def containsSub (needle : List Char) : List Char → Bool
  | [] => needle.isEmpty
  | c :: t => needle.isPrefixOf (c :: t) || containsSub needle t

/-- The scan `files.find(file => file.includes(datasetId))`. -/
def getDatasetInfoScan (files : List String) (datasetId : String) : Option String :=
  files.find? (fun f => containsSub datasetId.data f.data)

/-- `getDatasetInfo`: re-process the first matching stored file (the
re-processing itself is a collaborator call, abstracted as `reprocess`), or
return `null` when no stored filename contains the id. -/
def getDatasetInfo (files : List String) (reprocess : String → Option DatasetInfo)
    (datasetId : String) : Option DatasetInfo :=
  match getDatasetInfoScan files datasetId with
  | none => none
  | some f => reprocess f

/-! ## Helper lemmas -/

theorem string_ext {s t : String} (h : s.data = t.data) : s = t := by
  cases s; cases t; simp_all

theorem pythonFilePath_inj {cwd id1 id2 : String}
    (h : pythonFilePath cwd id1 = pythonFilePath cwd id2) : id1 = id2 := by
  have hd := congrArg String.data h
  simp only [pythonFilePath, String.data_append, List.append_assoc] at hd
  exact string_ext (List.append_cancel_right
    (List.append_cancel_left (List.append_cancel_left hd)))

theorem outputFilePath_inj {cwd id1 id2 : String} {f1 f2 : OutputFormat}
    (h1 : '.' ∉ id1.data) (h2 : '.' ∉ id2.data)
    (h : outputFilePath cwd id1 f1 = outputFilePath cwd id2 f2) : id1 = id2 := by
  have hd := congrArg String.data h
  simp only [outputFilePath, String.data_append, List.append_assoc] at hd
  have h3 := List.append_cancel_left (List.append_cancel_left hd)
  simp only [List.singleton_append] at h3
  exact string_ext (dot_split h1 h2 h3).1

theorem pythonFilePath_ne_outputFilePath (cwd id1 id2 : String) (f : OutputFormat) :
    pythonFilePath cwd id1 ≠ outputFilePath cwd id2 f := by
  intro h
  have hd := congrArg String.data h
  simp only [pythonFilePath, outputFilePath, String.data_append, List.append_assoc] at hd
  have h1 := List.append_cancel_left hd
  simp at h1

theorem jsOr_ne_empty (o : Option String) (d : String) (hd : d ≠ "") :
    jsOr o d ≠ "" := by
  unfold jsOr
  cases o with
  | none => exact hd
  | some s =>
      by_cases hs : s = ""
      · simp [hs, hd]
      · simp [hs]

/-- Claim C2: two executions with distinct ExecutionIds have pairwise distinct temp
script paths (`{cwd}/temp/{id}.py`) and output paths
(`{cwd}/output/{id}.{format}`); a temp path never coincides with an output
path at all.  Both paths of one execution are built from the same
`executionId` argument of `executePythonCode`, and `pythonFilePath` /
`outputFilePath` take no clock input, so the paths are independent of
wall-clock time.  The ids are `uuidv4()` values, hence contain no `'.'`,
which is the shape hypothesis used here. -/
theorem distinct_ids_distinct_paths (cwd id1 id2 : String) (f1 f2 : OutputFormat)
    (hne : id1 ≠ id2) (h1 : '.' ∉ id1.data) (h2 : '.' ∉ id2.data) :
    pythonFilePath cwd id1 ≠ pythonFilePath cwd id2 ∧
    outputFilePath cwd id1 f1 ≠ outputFilePath cwd id2 f2 ∧
    pythonFilePath cwd id1 ≠ outputFilePath cwd id2 f2 ∧
    pythonFilePath cwd id2 ≠ outputFilePath cwd id1 f1 :=
  ⟨fun h => hne (pythonFilePath_inj h),
   fun h => hne (outputFilePath_inj h1 h2 h),
   pythonFilePath_ne_outputFilePath cwd id1 id2 f2,
   pythonFilePath_ne_outputFilePath cwd id2 id1 f1⟩

theorem distinct_ids_distinct_paths_witness :
    pythonFilePath "/srv" "11d6" ≠ pythonFilePath "/srv" "2ab7" ∧
    outputFilePath "/srv" "11d6" .png ≠ outputFilePath "/srv" "2ab7" .html ∧
    pythonFilePath "/srv" "11d6" ≠ outputFilePath "/srv" "2ab7" .html ∧
    pythonFilePath "/srv" "2ab7" ≠ outputFilePath "/srv" "11d6" .png :=
  distinct_ids_distinct_paths "/srv" "11d6" "2ab7" .png .html
    (by decide) (by decide) (by decide)

theorem executePythonCode_throwBefore (cwd : String) (req : ChartGenerationRequest)
    (executionId : String) (msg : Option String) (fs0 : Finset String) :
    executePythonCode cwd req executionId (.throwBeforeWrite msg) fs0 =
      ((if pythonFilePath cwd executionId ∈ fs0 then
          fs0.erase (pythonFilePath cwd executionId) else fs0),
       { success := false, output := ""
       , error := some (msg.getD "Unknown error occurred"), chartPath := none }) := rfl

theorem executePythonCode_throwAfter (cwd : String) (req : ChartGenerationRequest)
    (executionId : String) (msg : Option String) (fs0 : Finset String) :
    executePythonCode cwd req executionId (.throwAfterWrite msg) fs0 =
      ((insert (pythonFilePath cwd executionId) fs0).erase (pythonFilePath cwd executionId),
       { success := false, output := ""
       , error := some (msg.getD "Unknown error occurred"), chartPath := none }) := by
  unfold executePythonCode
  dsimp only
  rw [if_pos (Finset.mem_insert_self _ _)]

theorem executePythonCode_run (cwd : String) (req : ChartGenerationRequest)
    (executionId : String) (o : RunOutcome) (chartCreated : Bool) (fs0 : Finset String) :
    executePythonCode cwd req executionId (.run o chartCreated) fs0 =
      ((if chartCreated then
          insert (outputFilePath cwd executionId req.outputFormat)
            (insert (pythonFilePath cwd executionId) fs0)
        else insert (pythonFilePath cwd executionId) fs0).erase
          (pythonFilePath cwd executionId),
       if (runPythonFile o).success = true ∧
          outputFilePath cwd executionId req.outputFormat ∈
            (if chartCreated then
               insert (outputFilePath cwd executionId req.outputFormat)
                 (insert (pythonFilePath cwd executionId) fs0)
             else insert (pythonFilePath cwd executionId) fs0) then
         { success := true, output := (runPythonFile o).output, error := none
         , chartPath := some (outputFilePath cwd executionId req.outputFormat) }
       else
         { success := false, output := (runPythonFile o).output
         , error := some (jsOr (runPythonFile o).error "Chart generation failed")
         , chartPath := none }) := by
  have hpy : pythonFilePath cwd executionId ∈
      (if chartCreated then
         insert (outputFilePath cwd executionId req.outputFormat)
           (insert (pythonFilePath cwd executionId) fs0)
       else insert (pythonFilePath cwd executionId) fs0) := by
    split
    · exact Finset.mem_insert_of_mem (Finset.mem_insert_self _ _)
    · exact Finset.mem_insert_self _ _
  unfold executePythonCode
  dsimp only
  split
  · split
    · rw [if_pos (Finset.mem_insert_of_mem (Finset.mem_insert_self _ _))]
    · rw [if_pos (Finset.mem_insert_of_mem (Finset.mem_insert_self _ _))]
  · split
    · rw [if_pos (Finset.mem_insert_self _ _)]
    · rw [if_pos (Finset.mem_insert_self _ _)]

/-- Claim C1: the `ExecutionResult` of `executePythonCode` has `success = true`
iff the sandboxed process run reported clean completion and the expected
output file at the execution's output path exists on disk afterwards; in
particular a clean exit that never produced the output file yields
`success = false` together with a non-empty error message
(`result.error || 'Chart generation failed'`). -/
theorem execution_success_iff_clean_and_artifact (cwd : String)
    (req : ChartGenerationRequest) (executionId : String) (ev : ExecEvent)
    (fs0 : Finset String) :
    ((executePythonCode cwd req executionId ev fs0).2.success = true ↔
      (ev.cleanCompletion = true ∧
       outputFilePath cwd executionId req.outputFormat ∈
         (executePythonCode cwd req executionId ev fs0).1)) ∧
    (∀ o chartCreated, ev = .run o chartCreated →
      (runPythonFile o).success = true →
      outputFilePath cwd executionId req.outputFormat ∉
        (executePythonCode cwd req executionId ev fs0).1 →
      (executePythonCode cwd req executionId ev fs0).2.success = false ∧
      ∃ msg, (executePythonCode cwd req executionId ev fs0).2.error = some msg ∧
        msg ≠ "") := by
  have hne : outputFilePath cwd executionId req.outputFormat ≠
      pythonFilePath cwd executionId :=
    fun h => pythonFilePath_ne_outputFilePath cwd executionId executionId
      req.outputFormat h.symm
  cases ev with
  | throwBeforeWrite msg =>
      rw [executePythonCode_throwBefore]
      refine ⟨by simp [ExecEvent.cleanCompletion], ?_⟩
      intro o cc h
      exact absurd h (by simp)
  | throwAfterWrite msg =>
      rw [executePythonCode_throwAfter]
      refine ⟨by simp [ExecEvent.cleanCompletion], ?_⟩
      intro o cc h
      exact absurd h (by simp)
  | run o chartCreated =>
      rw [executePythonCode_run]
      by_cases hcond : (runPythonFile o).success = true ∧
          outputFilePath cwd executionId req.outputFormat ∈
            (if chartCreated then
               insert (outputFilePath cwd executionId req.outputFormat)
                 (insert (pythonFilePath cwd executionId) fs0)
             else insert (pythonFilePath cwd executionId) fs0)
      · rw [if_pos hcond]
        constructor
        · constructor
          · intro _
            exact ⟨hcond.1, Finset.mem_erase.mpr ⟨hne, hcond.2⟩⟩
          · intro _; rfl
        · intro o' cc' heq hclean hnot
          cases heq
          exact absurd (Finset.mem_erase.mpr ⟨hne, hcond.2⟩) hnot
      · rw [if_neg hcond]
        constructor
        · constructor
          · intro h; exact absurd h (by simp)
          · intro ⟨hclean, hmem⟩
            exact absurd ⟨hclean, (Finset.mem_erase.mp hmem).2⟩ hcond
        · intro o' cc' heq hclean hnot
          cases heq
          exact ⟨rfl, jsOr (runPythonFile o).error "Chart generation failed",
            rfl, jsOr_ne_empty _ _ (by decide)⟩

theorem execution_success_iff_witness :
    (runPythonFile ⟨"ok", ""⟩).success = true ∧
    (executePythonCode "/srv" ⟨"plt.plot()", "/srv/d.csv", .png⟩ "id1"
        (.run ⟨"ok", ""⟩ false) ∅).2.success = false ∧
    (executePythonCode "/srv" ⟨"plt.plot()", "/srv/d.csv", .png⟩ "id1"
        (.run ⟨"ok", ""⟩ false) ∅).2.error = some "Chart generation failed" :=
  ⟨by decide,
   ((execution_success_iff_clean_and_artifact "/srv" ⟨"plt.plot()", "/srv/d.csv", .png⟩
      "id1" (.run ⟨"ok", ""⟩ false) ∅).2 ⟨"ok", ""⟩ false rfl (by decide) (by decide)).1,
   by decide⟩

/-- Claim C3: for every outcome of the execution — success, process failure,
missing output artifact, or an exception raised inside the routine — the
temp script file `{cwd}/temp/{id}.py` is gone when `executePythonCode`
returns (the `finally` block erases it); everything retained beyond the
initial filesystem is at most the output artifact, and on success the
output artifact is indeed retained. -/
theorem temp_script_always_removed (cwd : String) (req : ChartGenerationRequest)
    (executionId : String) (ev : ExecEvent) (fs0 : Finset String) :
    pythonFilePath cwd executionId ∉ (executePythonCode cwd req executionId ev fs0).1 ∧
    (executePythonCode cwd req executionId ev fs0).1 ⊆
      insert (outputFilePath cwd executionId req.outputFormat) fs0 ∧
    ((executePythonCode cwd req executionId ev fs0).2.success = true →
      outputFilePath cwd executionId req.outputFormat ∈
        (executePythonCode cwd req executionId ev fs0).1) := by
  have hne : outputFilePath cwd executionId req.outputFormat ≠
      pythonFilePath cwd executionId :=
    fun h => pythonFilePath_ne_outputFilePath cwd executionId executionId
      req.outputFormat h.symm
  cases ev with
  | throwBeforeWrite msg =>
      rw [executePythonCode_throwBefore]
      refine ⟨?_, ?_, ?_⟩
      · dsimp only
        split
        · exact Finset.not_mem_erase _ _
        · assumption
      · dsimp only
        split
        · exact fun x hx => Finset.mem_insert_of_mem (Finset.mem_of_mem_erase hx)
        · exact fun x hx => Finset.mem_insert_of_mem hx
      · intro h; exact absurd h (by simp)
  | throwAfterWrite msg =>
      rw [executePythonCode_throwAfter]
      refine ⟨Finset.not_mem_erase _ _, ?_, ?_⟩
      · intro x hx
        have hx' := Finset.mem_erase.mp hx
        rcases Finset.mem_insert.mp hx'.2 with h | h
        · exact absurd h hx'.1
        · exact Finset.mem_insert_of_mem h
      · intro h; exact absurd h (by simp)
  | run o chartCreated =>
      rw [executePythonCode_run]
      refine ⟨Finset.not_mem_erase _ _, ?_, ?_⟩
      · intro x hx
        have hx' := Finset.mem_erase.mp hx
        have hx2 := hx'.2
        split at hx2
        · rcases Finset.mem_insert.mp hx2 with h | h
          · exact h ▸ Finset.mem_insert_self _ _
          · rcases Finset.mem_insert.mp h with h' | h'
            · exact absurd h' hx'.1
            · exact Finset.mem_insert_of_mem h'
        · rcases Finset.mem_insert.mp hx2 with h | h
          · exact absurd h hx'.1
          · exact Finset.mem_insert_of_mem h
      · dsimp only
        intro hsucc
        by_cases hcond : (runPythonFile o).success = true ∧
            outputFilePath cwd executionId req.outputFormat ∈
              (if chartCreated then
                 insert (outputFilePath cwd executionId req.outputFormat)
                   (insert (pythonFilePath cwd executionId) fs0)
               else insert (pythonFilePath cwd executionId) fs0)
        · exact Finset.mem_erase.mpr ⟨hne, hcond.2⟩
        · rw [if_neg hcond] at hsucc
          exact absurd hsucc (by simp)

theorem temp_script_always_removed_witness :
    pythonFilePath "/srv" "id2" ∉
      (executePythonCode "/srv" ⟨"plt.plot()", "/srv/d.csv", .svg⟩ "id2"
        (.run ⟨"ok", ""⟩ true) ∅).1 ∧
    outputFilePath "/srv" "id2" .svg ∈
      (executePythonCode "/srv" ⟨"plt.plot()", "/srv/d.csv", .svg⟩ "id2"
        (.run ⟨"ok", ""⟩ true) ∅).1 :=
  ⟨(temp_script_always_removed "/srv" ⟨"plt.plot()", "/srv/d.csv", .svg⟩ "id2"
      (.run ⟨"ok", ""⟩ true) ∅).1,
   (temp_script_always_removed "/srv" ⟨"plt.plot()", "/srv/d.csv", .svg⟩ "id2"
      (.run ⟨"ok", ""⟩ true) ∅).2.2 (by decide)⟩

theorem firstTagPos_ws_append (others : List (List Char))
    (hgood : goodTags others = true) (ws rest : List Char)
    (hws : ∀ c ∈ ws, isWS c = true) :
    firstTagPos others (ws ++ rest) = ws.length + firstTagPos others rest := by
  induction ws with
  | nil => simp
  | cons w t ih =>
      have hw : isWS w = true := hws w (List.mem_cons_self _ _)
      have hhit : lookaheadHit others (w :: (t ++ rest)) = false := by
        unfold lookaheadHit
        rw [List.any_eq_false]
        intro o ho
        have hgo := List.all_eq_true.mp hgood o ho
        match o, hgo with
        | c :: cs, hgo =>
            cases hcw : (c == w) with
            | false => simp [List.isPrefixOf, hcw]
            | true =>
                have hc : c = w := by simpa using hcw
                subst hc
                simp [hw] at hgo
      rw [List.cons_append]
      rw [show firstTagPos others (w :: (t ++ rest)) =
            if lookaheadHit others (w :: (t ++ rest)) then 0
            else firstTagPos others (t ++ rest) + 1 from rfl]
      rw [hhit]
      simp [ih (fun c hc => hws c (List.mem_cons_of_mem _ hc)), Nat.succ_add,
        Nat.add_comm, Nat.add_assoc]

theorem dropWhile_ws_append (ws x : List Char) (hws : ∀ c ∈ ws, isWS c = true) :
    (ws ++ x).dropWhile isWS = x.dropWhile isWS := by
  induction ws with
  | nil => rfl
  | cons w t ih =>
      rw [List.cons_append, List.dropWhile_cons,
        if_pos (hws w (List.mem_cons_self _ _))]
      exact ih (fun c hc => hws c (List.mem_cons_of_mem _ hc))

theorem trimChars_ws_append (ws x : List Char) (hws : ∀ c ∈ ws, isWS c = true) :
    trimChars (ws ++ x) = trimChars x := by
  unfold trimChars
  rw [dropWhile_ws_append ws x hws]

theorem take_ws_append (ws rest : List Char) (q : Nat) :
    (ws ++ rest).take (ws.length + q) = ws ++ rest.take q := by
  simp [List.take_append]

theorem trim_capture_eq (others : List (List Char))
    (hgood : goodTags others = true) (rest : List Char) :
    trimChars ((rest.dropWhile isWS).take
        (firstTagPos others (rest.dropWhile isWS)))
      = trimChars (rest.take (firstTagPos others rest)) := by
  have hsplit : rest.takeWhile isWS ++ rest.dropWhile isWS = rest :=
    List.takeWhile_append_dropWhile isWS rest
  have hws : ∀ c ∈ rest.takeWhile isWS, isWS c = true :=
    fun c hc => List.mem_takeWhile_imp hc
  conv_rhs => rw [← hsplit]
  rw [firstTagPos_ws_append others hgood _ _ hws, take_ws_append,
    trimChars_ws_append _ _ hws]

theorem specSectionText_eq_map_trim (tag : List Char) (others : List (List Char))
    (s : List Char) (hgood : goodTags others = true) :
    specSectionText tag others s = (extractRaw tag others s).map trimChars := by
  unfold specSectionText extractRaw
  cases h : findSub tag s with
  | none => rfl
  | some i =>
      simp only [Option.map_some', Option.map_map]
      rw [trim_capture_eq others hgood]

theorem sectionField_of_spec (tag : List Char) (others : List (List Char))
    (dflt : List Char) (s : List Char) (t : List Char)
    (hgood : goodTags others = true)
    (h : specSectionText tag others s = some t) :
    sectionField tag others dflt s = if t.isEmpty then dflt else t := by
  rw [specSectionText_eq_map_trim tag others s hgood] at h
  unfold sectionField
  cases hx : extractRaw tag others s with
  | none => rw [hx] at h; simp at h
  | some raw =>
      rw [hx] at h
      simp only [Option.map_some', Option.some.injEq] at h
      simp only [h]

theorem sectionField_of_missing (tag : List Char) (others : List (List Char))
    (dflt : List Char) (s : List Char)
    (h : findSub tag s = none) :
    sectionField tag others dflt s = dflt := by
  unfold sectionField extractRaw
  rw [h]
  rfl

/-- Counterexample to claim C4 as stated: in the reply
`"ANALYSIS: CODE: c1 VISUALIZATION_TYPE: v1 EXPLANATION: e1"` the text lying
between `ANALYSIS:` and the nearest following other tag trims to the empty
string, yet `parseAIResponse` does not return that empty string for the
analysis field — JavaScript `match?.[1]?.trim() || placeholder` treats the
empty capture as falsy and substitutes `'Analysis not provided'`. -/
theorem parser_empty_section_counterexample :
    specSectionText tagAnalysis [tagCode, tagVisualizationType, tagExplanation]
      "ANALYSIS: CODE: c1 VISUALIZATION_TYPE: v1 EXPLANATION: e1".data = some [] ∧
    (parseAIResponse
      "ANALYSIS: CODE: c1 VISUALIZATION_TYPE: v1 EXPLANATION: e1").analysis ≠ "" ∧
    (parseAIResponse
      "ANALYSIS: CODE: c1 VISUALIZATION_TYPE: v1 EXPLANATION: e1").analysis =
      "Analysis not provided" := by
  refine ⟨by decide, by decide, by decide⟩

/-- Claim C4 (amended): for every raw reply containing all four section tags
in any order, each parsed field equals the trimmed text lying between that
tag and the nearest following occurrence of one of the other three tags (or
end-of-text), except that a field whose trimmed section text is empty is
replaced by that field's documented placeholder. -/
theorem parseAIResponse_sections (s : String) (tA tC tV tE : List Char)
    (hA : specSectionText tagAnalysis [tagCode, tagVisualizationType, tagExplanation]
        s.data = some tA)
    (hC : specSectionText tagCode [tagAnalysis, tagVisualizationType, tagExplanation]
        s.data = some tC)
    (hV : specSectionText tagVisualizationType [tagAnalysis, tagCode, tagExplanation]
        s.data = some tV)
    (hE : specSectionText tagExplanation [tagAnalysis, tagCode, tagVisualizationType]
        s.data = some tE) :
    (parseAIResponse s).analysis =
      ⟨if tA.isEmpty then "Analysis not provided".data else tA⟩ ∧
    (parseAIResponse s).pythonCode =
      ⟨if tC.isEmpty then "print(\"No code generated\")".data else tC⟩ ∧
    (parseAIResponse s).visualizationType =
      ⟨if tV.isEmpty then "Unknown".data else tV⟩ ∧
    (parseAIResponse s).explanation =
      ⟨if tE.isEmpty then "Explanation not provided".data else tE⟩ := by
  unfold parseAIResponse
  refine ⟨?_, ?_, ?_, ?_⟩
  · exact congrArg String.mk (sectionField_of_spec _ _ _ _ _ (by decide) hA)
  · exact congrArg String.mk (sectionField_of_spec _ _ _ _ _ (by decide) hC)
  · exact congrArg String.mk (sectionField_of_spec _ _ _ _ _ (by decide) hV)
  · exact congrArg String.mk (sectionField_of_spec _ _ _ _ _ (by decide) hE)

theorem parseAIResponse_sections_witness :
    (parseAIResponse
      "EXPLANATION: why\nANALYSIS: trend up\nCODE: plt.plot(df)\nVISUALIZATION_TYPE: line").analysis =
      ⟨if ("trend up".data).isEmpty then "Analysis not provided".data
       else "trend up".data⟩ ∧
    (parseAIResponse
      "EXPLANATION: why\nANALYSIS: trend up\nCODE: plt.plot(df)\nVISUALIZATION_TYPE: line").pythonCode =
      ⟨if ("plt.plot(df)".data).isEmpty then "print(\"No code generated\")".data
       else "plt.plot(df)".data⟩ ∧
    (parseAIResponse
      "EXPLANATION: why\nANALYSIS: trend up\nCODE: plt.plot(df)\nVISUALIZATION_TYPE: line").visualizationType =
      ⟨if ("line".data).isEmpty then "Unknown".data else "line".data⟩ ∧
    (parseAIResponse
      "EXPLANATION: why\nANALYSIS: trend up\nCODE: plt.plot(df)\nVISUALIZATION_TYPE: line").explanation =
      ⟨if ("why".data).isEmpty then "Explanation not provided".data
       else "why".data⟩ :=
  parseAIResponse_sections
    "EXPLANATION: why\nANALYSIS: trend up\nCODE: plt.plot(df)\nVISUALIZATION_TYPE: line"
    "trend up".data "plt.plot(df)".data "line".data "why".data
    (by decide) (by decide) (by decide) (by decide)

/-- Claim C5: `parseAIResponse` is total (it never raises: it is a plain
function into `ParsedAIResponse`), and every field whose tag is missing from
the reply, or whose section text trims to empty, equals its documented
placeholder: `'Analysis not provided'`, `print("No code generated")`,
`'Unknown'`, `'Explanation not provided'`. -/
theorem parseAIResponse_placeholders (s : String) :
    ((findSub tagAnalysis s.data = none ∨
      specSectionText tagAnalysis [tagCode, tagVisualizationType, tagExplanation]
        s.data = some []) →
      (parseAIResponse s).analysis = "Analysis not provided") ∧
    ((findSub tagCode s.data = none ∨
      specSectionText tagCode [tagAnalysis, tagVisualizationType, tagExplanation]
        s.data = some []) →
      (parseAIResponse s).pythonCode = "print(\"No code generated\")") ∧
    ((findSub tagVisualizationType s.data = none ∨
      specSectionText tagVisualizationType [tagAnalysis, tagCode, tagExplanation]
        s.data = some []) →
      (parseAIResponse s).visualizationType = "Unknown") ∧
    ((findSub tagExplanation s.data = none ∨
      specSectionText tagExplanation [tagAnalysis, tagCode, tagVisualizationType]
        s.data = some []) →
      (parseAIResponse s).explanation = "Explanation not provided") := by
  unfold parseAIResponse
  refine ⟨?_, ?_, ?_, ?_⟩ <;>
    rintro (h | h)
  · exact congrArg String.mk (sectionField_of_missing _ _ _ _ h)
  · rw [congrArg String.mk (sectionField_of_spec _ _ _ _ _ (by decide) h)]
    rfl
  · exact congrArg String.mk (sectionField_of_missing _ _ _ _ h)
  · rw [congrArg String.mk (sectionField_of_spec _ _ _ _ _ (by decide) h)]
    rfl
  · exact congrArg String.mk (sectionField_of_missing _ _ _ _ h)
  · rw [congrArg String.mk (sectionField_of_spec _ _ _ _ _ (by decide) h)]
    rfl
  · exact congrArg String.mk (sectionField_of_missing _ _ _ _ h)
  · rw [congrArg String.mk (sectionField_of_spec _ _ _ _ _ (by decide) h)]
    rfl

theorem parseAIResponse_placeholders_witness :
    (parseAIResponse "the model returned free text with no recognizable tags").analysis
      = "Analysis not provided" ∧
    (parseAIResponse "the model returned free text with no recognizable tags").pythonCode
      = "print(\"No code generated\")" ∧
    (parseAIResponse "the model returned free text with no recognizable tags").visualizationType
      = "Unknown" ∧
    (parseAIResponse "the model returned free text with no recognizable tags").explanation
      = "Explanation not provided" := by
  have h := parseAIResponse_placeholders
    "the model returned free text with no recognizable tags"
  exact ⟨h.1 (Or.inl (by decide)), h.2.1 (Or.inl (by decide)),
    h.2.2.1 (Or.inl (by decide)), h.2.2.2 (Or.inl (by decide))⟩

/-- Claim C6: after `cleanupOldFiles(maxAge)` sweeps the temp and output
directories, every file whose modification time is more than `maxAge`
before the current time has been deleted, and every file whose modification
time is within `maxAge` of the current time remains. -/
theorem cleanupOldFiles_retention (currentTime maxAge : Int)
    (tempFiles outputFiles : List StoredFile) (f : StoredFile) :
    ((f ∈ tempFiles → currentTime - f.mtime > maxAge →
        f ∉ (cleanupOldFiles currentTime maxAge tempFiles outputFiles).1) ∧
     (f ∈ tempFiles → currentTime - f.mtime ≤ maxAge →
        f ∈ (cleanupOldFiles currentTime maxAge tempFiles outputFiles).1)) ∧
    ((f ∈ outputFiles → currentTime - f.mtime > maxAge →
        f ∉ (cleanupOldFiles currentTime maxAge tempFiles outputFiles).2) ∧
     (f ∈ outputFiles → currentTime - f.mtime ≤ maxAge →
        f ∈ (cleanupOldFiles currentTime maxAge tempFiles outputFiles).2)) := by
  unfold cleanupOldFiles cleanupDirectory
  refine ⟨⟨?_, ?_⟩, ?_, ?_⟩ <;> intro hmem hage
  · intro hin
    have := (List.mem_filter.mp hin).2
    simp at this
    omega
  · exact List.mem_filter.mpr ⟨hmem, by simp; omega⟩
  · intro hin
    have := (List.mem_filter.mp hin).2
    simp at this
    omega
  · exact List.mem_filter.mpr ⟨hmem, by simp; omega⟩

theorem cleanupOldFiles_retention_witness :
    (⟨"old.py", 850⟩ : StoredFile) ∈ [(⟨"old.py", 850⟩ : StoredFile), ⟨"new.py", 950⟩] ∧
    (1000 : Int) - 850 > 100 ∧
    (⟨"old.py", 850⟩ : StoredFile) ∉
      (cleanupOldFiles 1000 100 [⟨"old.py", 850⟩, ⟨"new.py", 950⟩]
        [⟨"a.png", 899⟩, ⟨"b.png", 900⟩]).1 ∧
    (⟨"b.png", 900⟩ : StoredFile) ∈
      (cleanupOldFiles 1000 100 [⟨"old.py", 850⟩, ⟨"new.py", 950⟩]
        [⟨"a.png", 899⟩, ⟨"b.png", 900⟩]).2 :=
  ⟨by decide, by decide,
   (cleanupOldFiles_retention 1000 100 [⟨"old.py", 850⟩, ⟨"new.py", 950⟩]
      [⟨"a.png", 899⟩, ⟨"b.png", 900⟩] ⟨"old.py", 850⟩).1.1 (by decide) (by decide),
   (cleanupOldFiles_retention 1000 100 [⟨"old.py", 850⟩, ⟨"new.py", 950⟩]
      [⟨"a.png", 899⟩, ⟨"b.png", 900⟩] ⟨"b.png", 900⟩).2.2 (by decide) (by decide)⟩

/-- Claim C7: retrieving a chart by a filename not present in the output
directory answers NotFound (404 `'Chart not found'`); deleting a missing
filename also answers NotFound, and a second delete of the same filename
after a first successful delete answers NotFound rather than silently
succeeding. -/
theorem chartRoutes_notFound (store : Finset String) (filename : String) :
    (filename ∉ store → getChart store filename = .notFound) ∧
    (filename ∉ store → deleteChart store filename = (.notFound, store)) ∧
    (filename ∈ store →
      (deleteChart store filename).1 = .deleted ∧
      (deleteChart (deleteChart store filename).2 filename).1 = .notFound ∧
      getChart (deleteChart store filename).2 filename = .notFound) := by
  refine ⟨?_, ?_, ?_⟩
  · intro h; unfold getChart; rw [if_neg h]
  · intro h; unfold deleteChart; rw [if_neg h]
  · intro h
    unfold deleteChart getChart
    rw [if_pos h]
    refine ⟨rfl, ?_, ?_⟩
    · rw [if_neg (Finset.not_mem_erase _ _)]
    · rw [if_neg (Finset.not_mem_erase _ _)]

theorem chartRoutes_notFound_witness :
    getChart {"a.png"} "b.png" = .notFound ∧
    deleteChart {"a.png"} "b.png" = (.notFound, {"a.png"}) ∧
    (deleteChart {"a.png"} "a.png").1 = .deleted ∧
    (deleteChart (deleteChart {"a.png"} "a.png").2 "a.png").1 = .notFound ∧
    getChart (deleteChart {"a.png"} "a.png").2 "a.png" = .notFound := by
  have h := chartRoutes_notFound {"a.png"} "b.png"
  have h2 := (chartRoutes_notFound {"a.png"} "a.png").2.2 (by decide)
  exact ⟨h.1 (by decide), h.2.1 (by decide), h2.1, h2.2.1, h2.2.2⟩

/-- Claim C8: whenever sandbox execution failed (`success` false or no chart
path) after the AI analysis stage succeeded, the `/visualize` failure
response still carries the full analysis block — id, query, analysis text,
visualization type, explanation, timestamp — alongside the 400 status;
partial results are never discarded. -/
theorem visualizeRespond_keeps_analysis (query : String) (ai : AIAnalysisResponse)
    (er : PythonExecutionResult)
    (h : er.success = false ∨ er.chartPath = none) :
    (visualizeRespond query ai er).analysis = analysisPayloadOf query ai ∧
    (visualizeRespond query ai er).analysis.id = ai.id ∧
    (visualizeRespond query ai er).analysis.query = query ∧
    (visualizeRespond query ai er).analysis.analysis = ai.analysis ∧
    (visualizeRespond query ai er).analysis.visualizationType = ai.visualizationType ∧
    (visualizeRespond query ai er).analysis.explanation = ai.explanation ∧
    (visualizeRespond query ai er).analysis.timestamp = ai.timestamp ∧
    (visualizeRespond query ai er).status = 400 ∧
    (visualizeRespond query ai er).success = false := by
  have hcond : ¬(er.success = true ∧ er.chartPath.isSome = true) := by
    rcases h with h | h
    · intro hc; rw [h] at hc; simp at hc
    · intro hc; rw [h] at hc; simp at hc
  unfold visualizeRespond
  rw [if_neg hcond]
  exact ⟨rfl, rfl, rfl, rfl, rfl, rfl, rfl, rfl, rfl⟩

theorem visualizeRespond_keeps_analysis_witness :
    (visualizeRespond "total sales by region"
      ⟨"a1", "sales rise", "plt.bar(df)", "bar", "shows totals", 1700⟩
      ⟨false, "Traceback", some "NameError", none⟩).analysis =
      analysisPayloadOf "total sales by region"
        ⟨"a1", "sales rise", "plt.bar(df)", "bar", "shows totals", 1700⟩ ∧
    (visualizeRespond "total sales by region"
      ⟨"a1", "sales rise", "plt.bar(df)", "bar", "shows totals", 1700⟩
      ⟨false, "Traceback", some "NameError", none⟩).status = 400 :=
  ⟨(visualizeRespond_keeps_analysis "total sales by region"
      ⟨"a1", "sales rise", "plt.bar(df)", "bar", "shows totals", 1700⟩
      ⟨false, "Traceback", some "NameError", none⟩ (Or.inl rfl)).1,
   (visualizeRespond_keeps_analysis "total sales by region"
      ⟨"a1", "sales rise", "plt.bar(df)", "bar", "shows totals", 1700⟩
      ⟨false, "Traceback", some "NameError", none⟩ (Or.inl rfl)).2.2.2.2.2.2.2.1⟩

/-- Claim C9: each column's inferred type is one of number/date/string and is
determined solely by the first non-empty value of the column: number if that
value is numeric or parses as a number, otherwise date if it is a date or
parses as one, otherwise string; a column with no non-empty values is typed
string, and values after the first non-empty one never influence the
result. -/
theorem inferColumnType_first_value (isNumStr isDateStr : String → Bool)
    (rows rows' : List (List CellValue)) (colIndex : Nat) :
    (inferColumnType isNumStr isDateStr rows colIndex = "number" ∨
     inferColumnType isNumStr isDateStr rows colIndex = "date" ∨
     inferColumnType isNumStr isDateStr rows colIndex = "string") ∧
    (columnValues rows colIndex = [] →
      inferColumnType isNumStr isDateStr rows colIndex = "string") ∧
    (∀ v rest, columnValues rows colIndex = v :: rest →
      inferColumnType isNumStr isDateStr rows colIndex =
        (if numberCheck isNumStr v then "number"
         else if dateCheck isDateStr v then "date" else "string")) ∧
    (∀ v rest rest', columnValues rows colIndex = v :: rest →
      columnValues rows' colIndex = v :: rest' →
      inferColumnType isNumStr isDateStr rows colIndex =
        inferColumnType isNumStr isDateStr rows' colIndex) := by
  refine ⟨?_, ?_, ?_, ?_⟩
  · unfold inferColumnType
    cases columnValues rows colIndex with
    | nil => right; right; rfl
    | cons v l =>
        unfold classifyValue
        by_cases h1 : numberCheck isNumStr v
        · left; simp [h1]
        · by_cases h2 : dateCheck isDateStr v
          · right; left; simp [h1, h2]
          · right; right; simp [h1, h2]
  · intro h; unfold inferColumnType; rw [h]
  · intro v rest h
    unfold inferColumnType
    rw [h]
    rfl
  · intro v rest rest' h h'
    unfold inferColumnType
    rw [h, h']

theorem inferColumnType_first_value_witness :
    columnValues [[CellValue.str "42"], [CellValue.str "hello"]] 0 =
      [CellValue.str "42", CellValue.str "hello"] ∧
    inferColumnType (fun s => decide (s = "42")) (fun _ => false)
      [[CellValue.str "42"], [CellValue.str "hello"]] 0 = "number" ∧
    inferColumnType (fun s => decide (s = "42")) (fun _ => false)
      [[CellValue.str "42"], [CellValue.str "hello"]] 0 =
      inferColumnType (fun s => decide (s = "42")) (fun _ => false)
        [[CellValue.str "42"], [CellValue.num 7]] 0 :=
  ⟨by decide,
   ((inferColumnType_first_value (fun s => decide (s = "42")) (fun _ => false)
      [[CellValue.str "42"], [CellValue.str "hello"]]
      [[CellValue.str "42"], [CellValue.num 7]] 0).2.2.1
      (CellValue.str "42") [CellValue.str "hello"] (by decide)).trans (by decide),
   (inferColumnType_first_value (fun s => decide (s = "42")) (fun _ => false)
      [[CellValue.str "42"], [CellValue.str "hello"]]
      [[CellValue.str "42"], [CellValue.num 7]] 0).2.2.2
      (CellValue.str "42") [CellValue.str "hello"] [CellValue.num 7]
      (by decide) (by decide)⟩

/-- Claim C10: `processUploadedFile` returns a `DatasetInfo` whose `id` is a
fresh uuid unrelated to the stored filename (whose stem is a different uuid
plus a timestamp), while `getDatasetInfo` locates datasets only by scanning
stored filenames for the id as a substring; hence, whenever the fresh id
does not occur inside any stored filename (which is what uuid freshness
guarantees), looking up the returned id yields `null` — the id does not
round-trip. -/
theorem datasetId_no_roundtrip (uploadDir : String) (uploads : List String)
    (reprocess : String → Option DatasetInfo)
    (nameUuid : String) (now : Int) (ext : String) (freshId : String)
    (hfresh : ∀ f ∈ uploads, containsSub freshId.data f.data = false) :
    (processCSVDatasetInfo uploadDir freshId
        (storedUploadName nameUuid now ext)).id = freshId ∧
    (processCSVDatasetInfo uploadDir freshId
        (storedUploadName nameUuid now ext)).filename =
      storedUploadName nameUuid now ext ∧
    getDatasetInfo uploads reprocess
      (processCSVDatasetInfo uploadDir freshId
        (storedUploadName nameUuid now ext)).id = none := by
  refine ⟨rfl, rfl, ?_⟩
  unfold getDatasetInfo getDatasetInfoScan
  have hnone : uploads.find? (fun f => containsSub freshId.data f.data) = none :=
    List.find?_eq_none.mpr (fun f hf => by
      simp [hfresh f hf])
  rw [show (processCSVDatasetInfo uploadDir freshId
        (storedUploadName nameUuid now ext)).id = freshId from rfl, hnone]

theorem datasetId_no_roundtrip_witness :
    containsSub ("9c4d" : String).data (storedUploadName "3f2a" 1700000000 ".csv").data
      = false ∧
    (processCSVDatasetInfo "/srv/uploads" "9c4d"
      (storedUploadName "3f2a" 1700000000 ".csv")).id = "9c4d" ∧
    getDatasetInfo [storedUploadName "3f2a" 1700000000 ".csv"] (fun _ => none)
      (processCSVDatasetInfo "/srv/uploads" "9c4d"
        (storedUploadName "3f2a" 1700000000 ".csv")).id = none := by
  have h := datasetId_no_roundtrip "/srv/uploads"
    [storedUploadName "3f2a" 1700000000 ".csv"]
    (fun _ => none) "3f2a" 1700000000 ".csv" "9c4d"
    (by intro f hf; simp at hf; rw [hf]; decide)
  exact ⟨by decide, h.1, h.2.2⟩
